/-
Verification of the FlowMattic remote-MCP bridge (src/bridge.ts).

The bridge terminates a stdio JSON-RPC session and relays each request as an
HTTP JSON-RPC call to one remote endpoint.  This file shallowly embeds the
request-dispatch and transport-translation logic of `MCPHTTPBridge`:

  * JavaScript values flowing through the handlers are modelled by `Json`
    (a JSON value; the JavaScript `undefined` that arises at property-access
    sites is modelled by `Option Json` being `none`);
  * each of the six `setRequestHandler` closures in `setupHandlers` becomes a
    function from the outcome of `makeHttpRequest` (a resolved parsed body, or
    a rejection message) to the handler's own outcome (a returned local reply,
    or a thrown error message) together with the log lines it emits;
  * the response branch of `makeHttpRequest` becomes `handleHttpResponse`;
  * `generateId` becomes a function of the value drawn from `Math.random()`,
    modelled as a rational in [0, 1);
  * the `start` routine becomes a function from the probe outcome to the
    resulting session state and log lines.
-/
import Mathlib

namespace RemoteMcp

/-- A JSON value, as produced by `JSON.parse` and consumed by the handlers in
`bridge.ts`.  Numbers are modelled as integers (every numeric literal the
bridge handles — ids, error codes — is integral). -/
inductive Json where
  | null
  | bool (b : Bool)
  | num (n : Int)
  | str (s : String)
  | arr (elems : List Json)
  | obj (fields : List (String × Json))

/-- First-match association lookup on an object's field list. -/
def lookupField : List (String × Json) → String → Option Json
  | [], _ => none
  | (k, v) :: rest, key => if k = key then some v else lookupField rest key

/-- JavaScript property access `j.key` on a *non-nullish* base: `none`
models `undefined` (missing field, or access on a non-object primitive).
Access on `null` throws a TypeError in JavaScript and is modelled by
`jsGet` below; inside the handlers this function is only applied to bases
established non-null (after a `jsGet` success) or protected by `?.`
(`optChain` intercepts the `null` case before calling it). -/
def Json.getField : Json → String → Option Json
  | .obj fields, key => lookupField fields key
  | _, _ => none

/-- `Json.isNull j` holds exactly when `j` is the JSON `null`. -/
def Json.isNull : Json → Bool
  | .null => true
  | _ => false

/-- An apostrophe, built from its code point (used in the TypeError text). -/
def apos : String :=
  String.singleton (Char.ofNat 39)

/-- The message of the TypeError thrown by `null.key`:
`Cannot read properties of null (reading <key>)` with the key quoted. -/
def typeErrorMsg (key : String) : String :=
  "Cannot read properties of null (reading " ++ apos ++ key ++ apos ++ ")"

/-- Bare JavaScript property access `base.key`, as performed by the handlers
on the resolved body before any null check: throws a TypeError when the base
is `null` (the only nullish value `JSON.parse` can produce), otherwise
yields the property. -/
def jsGet (base : Json) (key : String) : Except String (Option Json) :=
  match base with
  | .null => .error (typeErrorMsg key)
  | j => .ok (j.getField key)

/-- JavaScript truthiness of a JSON value (`NaN` cannot arise since numbers
are integral). -/
def Json.truthy : Json → Bool
  | .null => false
  | .bool b => b
  | .num n => n != 0
  | .str s => s != ""
  | .arr _ => true
  | .obj _ => true

/-- Truthiness of a possibly-`undefined` value. -/
def truthyOpt : Option Json → Bool
  | none => false
  | some j => j.truthy

/-- `v?.key` applied to a possibly-`undefined` `v`: short-circuits on
`undefined`/`null`, otherwise ordinary property access. -/
def optChain (v : Option Json) (key : String) : Option Json :=
  match v with
  | none => none
  | some .null => none
  | some j => j.getField key

/-- `resp.outer?.inner`, as in `response.result?.tools`. -/
def optField (resp : Json) (outer inner : String) : Option Json :=
  optChain (resp.getField outer) inner

/-- `x || d` where `x` is a possibly-`undefined` property-chain value:
the value itself when truthy, the default otherwise. -/
def jsOr (v : Option Json) (d : Json) : Json :=
  match v with
  | some j => if j.truthy then j else d
  | none => d

/-- `Json.isObj j` holds exactly when `j` is an object, as every well-formed
JSON-RPC `error` member is. -/
def Json.isObj : Json → Bool
  | .obj _ => true
  | _ => false

mutual

/-- JavaScript `String(v)` conversion, used by `new Error(v)` and template
literals: arrays join their elements with `","` (with `null` rendered
empty), objects render as `"[object Object]"`. -/
def jsToString : Json → String
  | .null => "null"
  | .bool b => if b then "true" else "false"
  | .num n => toString n
  | .str s => s
  | .arr elems => String.intercalate "," (jsToStringElems elems)
  | .obj _ => "[object Object]"

/-- Element-wise rendering for `Array.prototype.toString`. -/
def jsToStringElems : List Json → List String
  | [] => []
  | .null :: rest => "" :: jsToStringElems rest
  | j :: rest => jsToString j :: jsToStringElems rest

end

/-- Four-digit lowercase hex rendering for `\u00XX` escapes. -/
def hex4 (n : Nat) : String :=
  let digit := fun (d : Nat) => String.singleton (Nat.digitChar d)
  digit (n / 4096 % 16) ++ digit (n / 256 % 16) ++ digit (n / 16 % 16) ++ digit (n % 16)

/-- Escaping of one character inside a `JSON.stringify`d string. -/
def escapeChar (c : Char) : String :=
  if c = '"' then "\\\""
  else if c = '\\' then "\\\\"
  else if c = Char.ofNat 8 then "\\b"
  else if c = Char.ofNat 9 then "\\t"
  else if c = Char.ofNat 10 then "\\n"
  else if c = Char.ofNat 12 then "\\f"
  else if c = Char.ofNat 13 then "\\r"
  else if c.toNat < 32 then "\\u" ++ hex4 c.toNat
  else String.singleton c

/-- `JSON.stringify` escaping of a whole string body. -/
def escapeString (s : String) : String :=
  String.join (s.toList.map escapeChar)

mutual

/-- `JSON.stringify` of a JSON value (object fields keep insertion order, as
in JavaScript). -/
def stringify : Json → String
  | .null => "null"
  | .bool b => if b then "true" else "false"
  | .num n => toString n
  | .str s => "\"" ++ escapeString s ++ "\""
  | .arr elems => "[" ++ String.intercalate "," (stringifyElems elems) ++ "]"
  | .obj fields => "\x7b" ++ String.intercalate "," (stringifyFields fields) ++ "\x7d"

/-- `JSON.stringify` of an array's elements. -/
def stringifyElems : List Json → List String
  | [] => []
  | j :: rest => stringify j :: stringifyElems rest

/-- `JSON.stringify` of an object's fields. -/
def stringifyFields : List (String × Json) → List String
  | [] => []
  | (k, v) :: rest => ("\"" ++ escapeString k ++ "\":" ++ stringify v) :: stringifyFields rest

end

/-! ## Outcome types

`makeHttpRequest` returns a promise: it either resolves with the body parsed
by `JSON.parse` (an arbitrary JSON value — the `JSONRPCResponse` cast is
unchecked) or rejects with an `Error`; the handlers only ever read the
rejection's `.message`, so a rejection is modelled by that message. -/

/-- Outcome of one `makeHttpRequest` round trip as seen by a handler. -/
inductive CallOutcome where
  | resolved (response : Json)
  | rejected (message : String)

/-- Outcome of one handler invocation: a returned local reply, or a thrown
`Error` carrying the given message. -/
inductive HandlerResult where
  | reply (value : Json)
  | thrown (message : String)

/-- `HandlerResult.isThrown r` holds exactly when the handler failed rather
than returning a reply. -/
def HandlerResult.isThrown : HandlerResult → Bool
  | .thrown _ => true
  | .reply _ => false

/-- One line written by `this.log`: `[MCP Remote] <ISO timestamp> <message>`.
The ambient timestamp is passed in as `now`. -/
def logLine (now message : String) : String :=
  "[MCP Remote] " ++ now ++ " " ++ message

/-- The message of `new Error(m)` built from the remote error's `message`
property: `""` when the property is `undefined`, otherwise the JavaScript
string conversion of its value. -/
def errorMessageOf (e : Json) : String :=
  match e.getField "message" with
  | none => ""
  | some m => jsToString m

/-- `response.error.message` as read by `throw new Error(response.error.message)`. -/
def errorMessageOfResp (response : Json) : String :=
  match response.getField "error" with
  | none => ""
  | some e => errorMessageOf e

/-- Rendering of `x.length` inside a template literal: array and string
lengths, an object's own `length` property, `"undefined"` otherwise. -/
def jsLength : Json → String
  | .arr elems => toString elems.length
  | .str s => toString s.length
  | .obj fields =>
      match lookupField fields "length" with
      | some v => jsToString v
      | none => "undefined"
  | _ => "undefined"

/-- Template-literal interpolation of a possibly-`undefined` value. -/
def interpOpt : Option Json → String
  | none => "undefined"
  | some j => jsToString j

/-! ## The six request handlers (bridge.ts, `setupHandlers`, lines 90–236)

Each function takes the ambient timestamp `now` (used only by `this.log`),
the data the closure reads from the incoming request (only `tools/call`'s
shaping reads any), and the outcome of the `makeHttpRequest` call, and
returns the handler's outcome paired with the log messages emitted. -/

/-- Handler for `tools/list` (lines 92–115): the first access
`response.error` throws a TypeError on a `null` body, caught like every
other failure; a remote `error` member or any rejection becomes a thrown
`"Failed to get tools: <cause>"`; otherwise the reply is
`\x7btools: response.result?.tools || []\x7d`. -/
def toolsListHandler (now : String) (outcome : CallOutcome) :
    HandlerResult × List String :=
  let log0 := logLine now "Handling tools/list request"
  match outcome with
  | .rejected msg =>
      (.thrown ("Failed to get tools: " ++ msg),
       [log0, logLine now ("Tools/list error: " ++ msg)])
  | .resolved response =>
      match jsGet response "error" with
      | .error m =>
          (.thrown ("Failed to get tools: " ++ m),
           [log0, logLine now ("Tools/list error: " ++ m)])
      | .ok errField =>
          if truthyOpt errField then
            let m := errorMessageOfResp response
            (.thrown ("Failed to get tools: " ++ m),
             [log0, logLine now ("Tools/list error: " ++ m)])
          else
            let tools := jsOr (optField response "result" "tools") (.arr [])
            (.reply (.obj [("tools", tools)]),
             [log0,
              logLine now ("Retrieved " ++ jsLength tools ++ " tools from FlowMattic server")])

/-- Handler for `tools/call` (lines 118–147): `params` is the incoming
request's `params` (`none` models `undefined`).  The first access
`response.error` throws a TypeError on a `null` body, caught like every
other failure; a remote `error` member or any rejection becomes a thrown
`"Tool execution failed: <cause>"`; otherwise the reply's `content` is the
remote content when truthy, else one synthesized text item holding
`JSON.stringify(response.result || \x7b\x7d)`. -/
def toolsCallHandler (now : String) (params : Option Json) (outcome : CallOutcome) :
    HandlerResult × List String :=
  let toolName := interpOpt (optChain params "name")
  let log0 := logLine now ("Handling tools/call request for tool: " ++ toolName)
  match outcome with
  | .rejected msg =>
      (.thrown ("Tool execution failed: " ++ msg),
       [log0, logLine now ("Tools/call error for " ++ toolName ++ ": " ++ msg)])
  | .resolved response =>
      match jsGet response "error" with
      | .error m =>
          (.thrown ("Tool execution failed: " ++ m),
           [log0, logLine now ("Tools/call error for " ++ toolName ++ ": " ++ m)])
      | .ok errField =>
          if truthyOpt errField then
            let m := errorMessageOfResp response
            (.thrown ("Tool execution failed: " ++ m),
             [log0, logLine now ("Tools/call error for " ++ toolName ++ ": " ++ m)])
          else
            let content := jsOr (optField response "result" "content")
              (.arr [.obj [("type", .str "text"),
                           ("text", .str (stringify (jsOr (response.getField "result") (.obj []))))]])
            (.reply (.obj [("content", content)]), [log0])

/-- Handler for `resources/list` (lines 150–168): no `error`-member check;
the first access `response.result` throws a TypeError on a `null` body,
caught like any rejection; every caught failure falls back to
`\x7bresources: []\x7d`. -/
def resourcesListHandler (now : String) (outcome : CallOutcome) :
    HandlerResult × List String :=
  let log0 := logLine now "Handling resources/list request"
  match outcome with
  | .rejected msg =>
      (.reply (.obj [("resources", .arr [])]),
       [log0, logLine now ("Resources/list error: " ++ msg)])
  | .resolved response =>
      match jsGet response "result" with
      | .error m =>
          (.reply (.obj [("resources", .arr [])]),
           [log0, logLine now ("Resources/list error: " ++ m)])
      | .ok resField =>
          (.reply (.obj [("resources", jsOr (optChain resField "resources") (.arr []))]),
           [log0])

/-- Handler for `resources/read` (lines 171–189): no `error`-member check;
the first access `response.result` throws a TypeError on a `null` body,
caught like any rejection; every caught failure falls back to
`\x7bcontents: []\x7d`. -/
def resourcesReadHandler (now : String) (outcome : CallOutcome) :
    HandlerResult × List String :=
  let log0 := logLine now "Handling resources/read request"
  match outcome with
  | .rejected msg =>
      (.reply (.obj [("contents", .arr [])]),
       [log0, logLine now ("Resources/read error: " ++ msg)])
  | .resolved response =>
      match jsGet response "result" with
      | .error m =>
          (.reply (.obj [("contents", .arr [])]),
           [log0, logLine now ("Resources/read error: " ++ m)])
      | .ok resField =>
          (.reply (.obj [("contents", jsOr (optChain resField "contents") (.arr []))]),
           [log0])

/-- Handler for `prompts/list` (lines 192–210): no `error`-member check;
the first access `response.result` throws a TypeError on a `null` body,
caught like any rejection; every caught failure falls back to
`\x7bprompts: []\x7d`. -/
def promptsListHandler (now : String) (outcome : CallOutcome) :
    HandlerResult × List String :=
  let log0 := logLine now "Handling prompts/list request"
  match outcome with
  | .rejected msg =>
      (.reply (.obj [("prompts", .arr [])]),
       [log0, logLine now ("Prompts/list error: " ++ msg)])
  | .resolved response =>
      match jsGet response "result" with
      | .error m =>
          (.reply (.obj [("prompts", .arr [])]),
           [log0, logLine now ("Prompts/list error: " ++ m)])
      | .ok resField =>
          (.reply (.obj [("prompts", jsOr (optChain resField "prompts") (.arr []))]),
           [log0])

/-- Handler for `prompts/get` (lines 213–235): no `error`-member check; the
first access `response.result` (evaluating the description member) throws a
TypeError on a `null` body, caught like any rejection; every caught failure
falls back to `\x7bdescription: "", messages: []\x7d`. -/
def promptsGetHandler (now : String) (outcome : CallOutcome) :
    HandlerResult × List String :=
  let log0 := logLine now "Handling prompts/get request"
  match outcome with
  | .rejected msg =>
      (.reply (.obj [("description", .str ""), ("messages", .arr [])]),
       [log0, logLine now ("Prompts/get error: " ++ msg)])
  | .resolved response =>
      match jsGet response "result" with
      | .error m =>
          (.reply (.obj [("description", .str ""), ("messages", .arr [])]),
           [log0, logLine now ("Prompts/get error: " ++ m)])
      | .ok resField =>
          (.reply (.obj
            [("description", jsOr (optChain resField "description") (.str "")),
             ("messages", jsOr (optChain resField "messages") (.arr []))]),
           [log0])

/-! ## Outgoing requests, id generation, startup, HTTP response handling -/

/-- The JSON-RPC envelope built for every outgoing HTTP call
(`JSONRPCRequest` in bridge.ts; `params` is `none` when the property is
`undefined` and hence omitted by `JSON.stringify`). -/
structure RpcRequest where
  jsonrpc : String
  method : String
  params : Option Json
  id : Int

/-- `generateId` (lines 238–240): `Math.floor(Math.random() * 1000000)`,
with the value drawn from `Math.random()` — a number in `[0, 1)` — passed in
as the rational `r`. -/
def generateId (r : ℚ) : Int :=
  Int.floor (r * 1000000)

/-- The six local methods served by `setupHandlers`. -/
inductive LocalMethod where
  | toolsList
  | toolsCall
  | resourcesList
  | resourcesRead
  | promptsList
  | promptsGet

/-- The outgoing request each handler passes to `makeHttpRequest`, given the
incoming request's `params` (ignored by the three list handlers, whose
closures take no request argument at all) and the `Math.random()` draw `r`.
List methods send the literal `\x7b\x7d`; call/read/get forward the incoming
`params` verbatim. -/
def buildOutgoing : LocalMethod → Option Json → ℚ → RpcRequest
  | .toolsList, _, r => ⟨"2.0", "tools/list", some (.obj []), generateId r⟩
  | .toolsCall, p, r => ⟨"2.0", "tools/call", p, generateId r⟩
  | .resourcesList, _, r => ⟨"2.0", "resources/list", some (.obj []), generateId r⟩
  | .resourcesRead, p, r => ⟨"2.0", "resources/read", p, generateId r⟩
  | .promptsList, _, r => ⟨"2.0", "prompts/list", some (.obj []), generateId r⟩
  | .promptsGet, p, r => ⟨"2.0", "prompts/get", p, generateId r⟩

/-- The params of the fixed startup handshake call (lines 311–323). -/
def probeParams : Json :=
  .obj [("protocolVersion", .str "2024-11-05"),
        ("capabilities", .obj []),
        ("clientInfo", .obj [("name", .str "FlowMattic MCP Remote"),
                             ("version", .str "1.0.0")])]

/-- The fixed startup handshake request: method `"initialize"`, the literal
id `1`, `probeParams` as params. -/
def probeRequest : RpcRequest :=
  ⟨"2.0", "initialize", some probeParams, 1⟩

/-- The two states of the bridge session's startup state machine. -/
inductive BridgeState where
  | probing
  | serving

/-- `start` (lines 305–344): performs the handshake probe, logs its outcome
(success line, or warning plus "continuing anyway"), then attaches the stdio
transport and serves.  The probe's outcome never changes the resulting
state. -/
def start (now url : String) (probe : CallOutcome) : BridgeState × List String :=
  let probeLogs :=
    match probe with
    | .resolved _ => [logLine now "✅ Successfully connected to FlowMattic server"]
    | .rejected msg =>
        [logLine now ("⚠️  FlowMattic server test failed: " ++ msg),
         logLine now "Continuing anyway, but there may be connection issues..."]
  (.serving,
   logLine now ("Starting MCP HTTP Bridge for FlowMattic server: " ++ url) ::
     probeLogs ++
     [logLine now "Starting stdio server for Claude Desktop...",
      logLine now "✅ Bridge started successfully",
      logLine now "Waiting for Claude Desktop to connect..."])

/-- The `end`-of-response branch of `makeHttpRequest` (lines 274–284):
`status` is `res.statusCode` (`0` standing for a falsy/absent code) and
`parsed` is the outcome of the JavaScript builtin `JSON.parse(body)`
(`none` when it throws).  A 2xx status with a parseable body resolves with
the parsed value; any other status rejects with `HTTP <status>: <body>`; a
2xx status with an unparseable body rejects with
`Invalid JSON response: <body>`. -/
def handleHttpResponse (status : Nat) (body : String) (parsed : Option Json) :
    Except String Json :=
  if status ≠ 0 ∧ 200 ≤ status ∧ status < 300 then
    match parsed with
    | some j => .ok j
    | none => .error ("Invalid JSON response: " ++ body)
  else
    .error ("HTTP " ++ toString status ++ ": " ++ body)

/-! ## Concrete responses used to instantiate the claims -/

/-- A well-formed error response: `error` present, `result` absent. -/
def errResp : Json :=
  .obj [("jsonrpc", .str "2.0"),
        ("error", .obj [("code", .num (-32000)), ("message", .str "boom")]),
        ("id", .num 3)]

/-- The remote error of the `tools/call` scenario:
`\x7berror:\x7bcode:-32601,message:"no such tool"\x7d\x7d`. -/
def noSuchToolErr : Json :=
  .obj [("code", .num (-32601)), ("message", .str "no such tool")]

/-- The full response of the `tools/call` scenario. -/
def noSuchToolResp : Json :=
  .obj [("jsonrpc", .str "2.0"), ("error", noSuchToolErr), ("id", .num 1)]

/-- A second well-formed error response, with a `data` member. -/
def deniedResp : Json :=
  .obj [("jsonrpc", .str "2.0"),
        ("error", .obj [("code", .num (-32000)), ("message", .str "denied"),
                        ("data", .null)]),
        ("id", .num 9)]

/-- The `tools/list` scenario response: `\x7bresult:\x7btools:[\x7bname:"echo"\x7d]\x7d\x7d`. -/
def echoToolsResp : Json :=
  .obj [("jsonrpc", .str "2.0"),
        ("result", .obj [("tools", .arr [.obj [("name", .str "echo")]])]),
        ("id", .num 2)]

/-- A successful `tools/call` response whose result has a falsy (`null`)
`content` member — present, but not truthy. -/
def nullContentResp : Json :=
  .obj [("jsonrpc", .str "2.0"),
        ("result", .obj [("content", .null)]),
        ("id", .num 7)]

/-- A successful `tools/call` response carrying a one-item content array. -/
def hiContentResp : Json :=
  .obj [("jsonrpc", .str "2.0"),
        ("result", .obj [("content",
          .arr [.obj [("type", .str "text"), ("text", .str "hi")]])]),
        ("id", .num 4)]

/-! ## Helper lemmas -/

/-- A value with a readable property is an object, hence truthy. -/
theorem truthy_of_getField_some {j : Json} {key : String} {v : Json}
    (h : j.getField key = some v) : j.truthy = true := by
  cases j <;> simp_all [Json.getField, Json.truthy]

/-- A value with a readable property is an object. -/
theorem getField_some_isObj {j : Json} {key : String} {v : Json}
    (h : j.getField key = some v) : j.isObj = true := by
  cases j <;> simp_all [Json.getField, Json.isObj]

/-- Bare property access on a non-null value does not throw. -/
theorem jsGet_of_not_null {j : Json} (h : j.isNull = false) (key : String) :
    jsGet j key = .ok (j.getField key) := by
  cases j <;> simp_all [jsGet, Json.isNull]

/-- Bare property access on an object does not throw. -/
theorem jsGet_of_isObj {j : Json} (h : j.isObj = true) (key : String) :
    jsGet j key = .ok (j.getField key) := by
  cases j <;> simp_all [jsGet, Json.isObj]

/-- A response whose `outer?.inner` chain yields a value is an object. -/
theorem isObj_of_optField_some {resp : Json} {outer inner : String} {v : Json}
    (h : optField resp outer inner = some v) : resp.isObj = true := by
  unfold optField optChain at h
  cases hr : resp.getField outer with
  | none =>
      rw [hr] at h
      simp at h
  | some j => exact getField_some_isObj hr

/-- `x || d` keeps `x` when truthy. -/
theorem jsOr_of_truthy {v : Json} (h : v.truthy = true) (d : Json) :
    jsOr (some v) d = v := by
  simp [jsOr, h]

/-- `x || d` substitutes the default when `x` is falsy or `undefined`. -/
theorem jsOr_of_not_truthy {v : Option Json} (h : truthyOpt v = false) (d : Json) :
    jsOr v d = d := by
  cases v with
  | none => rfl
  | some j => simp_all [jsOr, truthyOpt]

/-- `undefined || d` is the default. -/
theorem jsOr_none (d : Json) : jsOr none d = d := rfl

/-- Property access through `?.` on a falsy value is always `undefined`:
falsy values are `null`, `false`, `0` or `""`, none of which is an object. -/
theorem optChain_of_not_truthy {v : Option Json} (h : truthyOpt v = false) (key : String) :
    optChain v key = none := by
  cases v with
  | none => rfl
  | some j => cases j <;> simp_all [optChain, truthyOpt, Json.truthy, Json.getField]

/-! ## The claims -/

/-- **C10**: the three list methods always send the empty object as outgoing
`params`, for every incoming request — incoming params are dropped (the
outgoing request does not depend on them) — while `tools/call`,
`resources/read` and `prompts/get` forward the incoming params verbatim. -/
theorem c10_list_params_empty (r : ℚ) (p p' : Option Json) :
    (buildOutgoing .toolsList p r).params = some (.obj [])
  ∧ (buildOutgoing .resourcesList p r).params = some (.obj [])
  ∧ (buildOutgoing .promptsList p r).params = some (.obj [])
  ∧ buildOutgoing .toolsList p r = buildOutgoing .toolsList p' r
  ∧ buildOutgoing .resourcesList p r = buildOutgoing .resourcesList p' r
  ∧ buildOutgoing .promptsList p r = buildOutgoing .promptsList p' r
  ∧ (buildOutgoing .toolsCall p r).params = p
  ∧ (buildOutgoing .resourcesRead p r).params = p
  ∧ (buildOutgoing .promptsGet p r).params = p :=
  ⟨rfl, rfl, rfl, rfl, rfl, rfl, rfl, rfl, rfl⟩

/-- **C8**: whatever the outcome of the one-time startup `initialize` probe
(success or any rejection, timeout included), the session still reaches the
serving state; and the probe request itself is fixed — method
`"initialize"`, the literal id `1`, empty `capabilities`, and the fixed
client name and version. -/
theorem c8_probe_is_soft (now url : String) (probe : CallOutcome) :
    (start now url probe).1 = BridgeState.serving
  ∧ probeRequest.jsonrpc = "2.0"
  ∧ probeRequest.method = "initialize"
  ∧ probeRequest.id = 1
  ∧ probeRequest.params = some probeParams
  ∧ probeParams.getField "protocolVersion" = some (.str "2024-11-05")
  ∧ probeParams.getField "capabilities" = some (.obj [])
  ∧ probeParams.getField "clientInfo" =
      some (.obj [("name", .str "FlowMattic MCP Remote"), ("version", .str "1.0.0")]) := by
  refine ⟨?_, rfl, rfl, rfl, rfl, rfl, rfl, rfl⟩
  cases probe <;> rfl

/-- **C9**: for every supported method the bridge's result shaping is a pure
function of the `makeHttpRequest` outcome alone: two invocations with equal
outcomes produce equal replies, whatever the ambient state (timestamp,
incoming `tools/call` params) of each invocation. -/
theorem c9_shaping_is_pure (now now' : String) (p p' : Option Json) (outcome : CallOutcome) :
    (toolsListHandler now outcome).1 = (toolsListHandler now' outcome).1
  ∧ (toolsCallHandler now p outcome).1 = (toolsCallHandler now' p' outcome).1
  ∧ (resourcesListHandler now outcome).1 = (resourcesListHandler now' outcome).1
  ∧ (resourcesReadHandler now outcome).1 = (resourcesReadHandler now' outcome).1
  ∧ (promptsListHandler now outcome).1 = (promptsListHandler now' outcome).1
  ∧ (promptsGetHandler now outcome).1 = (promptsGetHandler now' outcome).1 := by
  refine ⟨?_, ?_, ?_, ?_, ?_, ?_⟩ <;> cases outcome <;> try rfl
  all_goals rename_i resp
  all_goals cases resp <;> try rfl
  all_goals simp only [toolsListHandler, toolsCallHandler]
  all_goals split <;> first | rfl | (split <;> rfl)

/-- **C1**: for the four non-tool methods, every remote failure — any
rejection of `makeHttpRequest` (transport error, non-2xx status, unparseable
body), or a well-formed `RpcResponse` carrying an `error` member (so with
`result` absent) — makes the handler return exactly the literal fallback of
§4.2 (`\x7bresources: []\x7d`, `\x7bcontents: []\x7d`, `\x7bprompts: []\x7d`,
`\x7bdescription: "", messages: []\x7d`), and never a thrown error. -/
theorem c1_non_tool_fallback (now msg : String) (resp e : Json)
    (hres : resp.getField "result" = none)
    (herr : resp.getField "error" = some e) :
    ((resourcesListHandler now (.rejected msg)).1 = .reply (.obj [("resources", .arr [])])
      ∧ (resourcesReadHandler now (.rejected msg)).1 = .reply (.obj [("contents", .arr [])])
      ∧ (promptsListHandler now (.rejected msg)).1 = .reply (.obj [("prompts", .arr [])])
      ∧ (promptsGetHandler now (.rejected msg)).1 =
          .reply (.obj [("description", .str ""), ("messages", .arr [])]))
  ∧ ((resourcesListHandler now (.resolved resp)).1 = .reply (.obj [("resources", .arr [])])
      ∧ (resourcesReadHandler now (.resolved resp)).1 = .reply (.obj [("contents", .arr [])])
      ∧ (promptsListHandler now (.resolved resp)).1 = .reply (.obj [("prompts", .arr [])])
      ∧ (promptsGetHandler now (.resolved resp)).1 =
          .reply (.obj [("description", .str ""), ("messages", .arr [])])) := by
  have hok : jsGet resp "result" = .ok (resp.getField "result") :=
    jsGet_of_isObj (getField_some_isObj herr) "result"
  refine ⟨⟨rfl, rfl, rfl, rfl⟩, ?_, ?_, ?_, ?_⟩ <;>
    simp [resourcesListHandler, resourcesReadHandler, promptsListHandler,
      promptsGetHandler, hok, optChain, hres, jsOr]

/-- Witness for **C1** at a transport failure and at the concrete error
response `errResp`. -/
theorem c1_non_tool_fallback_witness :
    errResp.getField "result" = none
  ∧ errResp.getField "error" =
      some (.obj [("code", .num (-32000)), ("message", .str "boom")])
  ∧ (resourcesListHandler "" (.rejected "socket hang up")).1 =
      .reply (.obj [("resources", .arr [])])
  ∧ (promptsGetHandler "" (.rejected "Request timeout")).1 =
      .reply (.obj [("description", .str ""), ("messages", .arr [])])
  ∧ (resourcesListHandler "" (.resolved errResp)).1 = .reply (.obj [("resources", .arr [])])
  ∧ (resourcesReadHandler "" (.resolved errResp)).1 = .reply (.obj [("contents", .arr [])])
  ∧ (promptsListHandler "" (.resolved errResp)).1 = .reply (.obj [("prompts", .arr [])])
  ∧ (promptsGetHandler "" (.resolved errResp)).1 =
      .reply (.obj [("description", .str ""), ("messages", .arr [])]) := by
  have h := c1_non_tool_fallback "" "socket hang up"
    errResp (.obj [("code", .num (-32000)), ("message", .str "boom")]) rfl rfl
  have h' := c1_non_tool_fallback "" "Request timeout"
    errResp (.obj [("code", .num (-32000)), ("message", .str "boom")]) rfl rfl
  exact ⟨rfl, rfl, h.1.1, h'.1.2.2.2, h.2.1, h.2.2.1, h.2.2.2.1, h.2.2.2.2⟩

/-- **C2**: for the two tool methods, every remote failure — any rejection
of `makeHttpRequest`, or an `RpcResponse` carrying an `error` member — makes
the handler throw the fixed method-specific prefix (`"Failed to get tools: "`
for `tools/list`, `"Tool execution failed: "` for `tools/call`) followed by
the original cause's message. -/
theorem c2_tool_failure_propagates (now msg m : String) (p : Option Json) (resp e : Json)
    (he : resp.getField "error" = some e)
    (hm : e.getField "message" = some (.str m)) :
    (toolsListHandler now (.rejected msg)).1 = .thrown ("Failed to get tools: " ++ msg)
  ∧ (toolsCallHandler now p (.rejected msg)).1 = .thrown ("Tool execution failed: " ++ msg)
  ∧ (toolsListHandler now (.resolved resp)).1 = .thrown ("Failed to get tools: " ++ m)
  ∧ (toolsCallHandler now p (.resolved resp)).1 = .thrown ("Tool execution failed: " ++ m) := by
  have htr : e.truthy = true := truthy_of_getField_some hm
  have hmsg : errorMessageOfResp resp = m := by
    have h1 : errorMessageOfResp resp = errorMessageOf e := by
      unfold errorMessageOfResp
      rw [he]
    rw [h1]
    unfold errorMessageOf
    rw [hm]
    rfl
  have hok : jsGet resp "error" = .ok (resp.getField "error") :=
    jsGet_of_isObj (getField_some_isObj he) "error"
  refine ⟨rfl, rfl, ?_, ?_⟩ <;>
    simp [toolsListHandler, toolsCallHandler, hok, he, truthyOpt, htr, hmsg]

/-- Witness for **C2**, realising the spec scenario: the remote error
`\x7bcode:-32601,message:"no such tool"\x7d` on `tools/call` yields the
thrown message `"Tool execution failed: no such tool"`. -/
theorem c2_tool_failure_propagates_witness :
    noSuchToolResp.getField "error" = some noSuchToolErr
  ∧ noSuchToolErr.getField "message" = some (.str "no such tool")
  ∧ (toolsCallHandler "" none (.resolved noSuchToolResp)).1 =
      .thrown "Tool execution failed: no such tool"
  ∧ (toolsListHandler "" (.resolved noSuchToolResp)).1 =
      .thrown "Failed to get tools: no such tool"
  ∧ (toolsListHandler "" (.rejected "HTTP 500: oops")).1 =
      .thrown "Failed to get tools: HTTP 500: oops" := by
  have h := c2_tool_failure_propagates "" "HTTP 500: oops" "no such tool"
    none noSuchToolResp noSuchToolErr rfl rfl
  exact ⟨rfl, rfl, h.2.2.2, h.2.2.1, h.1⟩

/-- **C4**: for the two propagate-policy methods, a response carrying an
`error` member (an object, as every well-formed JSON-RPC error is) is never
surfaced as a successful reply — the handler always throws. -/
theorem c4_error_never_success (now : String) (p : Option Json) (resp e : Json)
    (he : resp.getField "error" = some e) (hobj : e.isObj = true) :
    (toolsListHandler now (.resolved resp)).1.isThrown = true
  ∧ (toolsCallHandler now p (.resolved resp)).1.isThrown = true := by
  have htr : e.truthy = true := by cases e <;> simp_all [Json.isObj, Json.truthy]
  have hok : jsGet resp "error" = .ok (resp.getField "error") :=
    jsGet_of_isObj (getField_some_isObj he) "error"
  constructor <;>
    simp [toolsListHandler, toolsCallHandler, hok, he, truthyOpt, htr, HandlerResult.isThrown]

/-- Witness for **C4** at the concrete error response `deniedResp`. -/
theorem c4_error_never_success_witness :
    deniedResp.getField "error" =
      some (.obj [("code", .num (-32000)), ("message", .str "denied"), ("data", .null)])
  ∧ (Json.obj [("code", .num (-32000)), ("message", .str "denied"), ("data", .null)]).isObj = true
  ∧ (toolsListHandler "" (.resolved deniedResp)).1.isThrown = true
  ∧ (toolsCallHandler "" none (.resolved deniedResp)).1.isThrown = true := by
  have h := c4_error_never_success "" none deniedResp
    (.obj [("code", .num (-32000)), ("message", .str "denied"), ("data", .null)]) rfl rfl
  exact ⟨rfl, rfl, h.1, h.2⟩

/-- **C6**: for every supported method, a successful remote response (no
truthy `error` member) whose result carries the relevant field — an array,
or for `prompts/get`'s description a string — is forwarded with the exact
corresponding local shape, the carried content unmodified, only the envelope
reshaped. -/
theorem c6_success_forwarded (now : String) (p : Option Json) (resp : Json)
    (herr : truthyOpt (resp.getField "error") = false) :
    (∀ ts, optField resp "result" "tools" = some (.arr ts) →
        (toolsListHandler now (.resolved resp)).1 = .reply (.obj [("tools", .arr ts)]))
  ∧ (∀ cs, optField resp "result" "content" = some (.arr cs) →
        (toolsCallHandler now p (.resolved resp)).1 = .reply (.obj [("content", .arr cs)]))
  ∧ (∀ rs, optField resp "result" "resources" = some (.arr rs) →
        (resourcesListHandler now (.resolved resp)).1 = .reply (.obj [("resources", .arr rs)]))
  ∧ (∀ cs, optField resp "result" "contents" = some (.arr cs) →
        (resourcesReadHandler now (.resolved resp)).1 = .reply (.obj [("contents", .arr cs)]))
  ∧ (∀ ps, optField resp "result" "prompts" = some (.arr ps) →
        (promptsListHandler now (.resolved resp)).1 = .reply (.obj [("prompts", .arr ps)]))
  ∧ (∀ d ms, optField resp "result" "description" = some (.str d) →
        optField resp "result" "messages" = some (.arr ms) →
        (promptsGetHandler now (.resolved resp)).1 =
          .reply (.obj [("description", .str d), ("messages", .arr ms)])) := by
  refine ⟨?_, ?_, ?_, ?_, ?_, ?_⟩
  · intro ts h
    have hok : jsGet resp "error" = .ok (resp.getField "error") :=
      jsGet_of_isObj (isObj_of_optField_some h) "error"
    simp [toolsListHandler, hok, herr, h, jsOr, Json.truthy]
  · intro cs h
    have hok : jsGet resp "error" = .ok (resp.getField "error") :=
      jsGet_of_isObj (isObj_of_optField_some h) "error"
    simp [toolsCallHandler, hok, herr, h, jsOr, Json.truthy]
  · intro rs h
    have hok : jsGet resp "result" = .ok (resp.getField "result") :=
      jsGet_of_isObj (isObj_of_optField_some h) "result"
    have h' : optChain (resp.getField "result") "resources" = some (.arr rs) := h
    simp [resourcesListHandler, hok, h', jsOr, Json.truthy]
  · intro cs h
    have hok : jsGet resp "result" = .ok (resp.getField "result") :=
      jsGet_of_isObj (isObj_of_optField_some h) "result"
    have h' : optChain (resp.getField "result") "contents" = some (.arr cs) := h
    simp [resourcesReadHandler, hok, h', jsOr, Json.truthy]
  · intro ps h
    have hok : jsGet resp "result" = .ok (resp.getField "result") :=
      jsGet_of_isObj (isObj_of_optField_some h) "result"
    have h' : optChain (resp.getField "result") "prompts" = some (.arr ps) := h
    simp [promptsListHandler, hok, h', jsOr, Json.truthy]
  · intro d ms hd hm
    have hok : jsGet resp "result" = .ok (resp.getField "result") :=
      jsGet_of_isObj (isObj_of_optField_some hd) "result"
    have hd' : optChain (resp.getField "result") "description" = some (.str d) := hd
    have hm' : optChain (resp.getField "result") "messages" = some (.arr ms) := hm
    by_cases hde : d = "" <;>
      simp [promptsGetHandler, hok, hd', hm', hde, jsOr, Json.truthy]

/-- Witness for **C6**, realising the spec scenario: the remote response
`\x7bresult:\x7btools:[\x7bname:"echo"\x7d]\x7d\x7d` on `tools/list` yields
the local reply `\x7btools:[\x7bname:"echo"\x7d]\x7d`. -/
theorem c6_success_forwarded_witness :
    truthyOpt (echoToolsResp.getField "error") = false
  ∧ optField echoToolsResp "result" "tools" = some (.arr [.obj [("name", .str "echo")]])
  ∧ (toolsListHandler "" (.resolved echoToolsResp)).1 =
      .reply (.obj [("tools", .arr [.obj [("name", .str "echo")]])]) := by
  exact ⟨rfl, rfl,
    (c6_success_forwarded "" none echoToolsResp rfl).1 [.obj [("name", .str "echo")]] rfl⟩

/-- **C7**: `makeHttpRequest`'s response handling resolves with the parsed
body exactly when the HTTP status is in 200–299 and the body parses as JSON;
a status outside 200–299 rejects with the protocol error
`HTTP <status>: <body>` carrying the raw body, and a 2xx status with an
unparseable body rejects with the decode error
`Invalid JSON response: <body>` carrying the raw body. -/
theorem c7_http_response_handling (status : Nat) (body : String) (parsed : Option Json) :
    (∀ j, 200 ≤ status → status < 300 → parsed = some j →
        handleHttpResponse status body parsed = .ok j)
  ∧ ((status < 200 ∨ 300 ≤ status) →
        handleHttpResponse status body parsed =
          .error ("HTTP " ++ toString status ++ ": " ++ body))
  ∧ (200 ≤ status → status < 300 → parsed = none →
        handleHttpResponse status body parsed = .error ("Invalid JSON response: " ++ body))
  ∧ ((∃ j, handleHttpResponse status body parsed = .ok j) ↔
        (200 ≤ status ∧ status < 300 ∧ parsed ≠ none)) := by
  unfold handleHttpResponse
  refine ⟨?_, ?_, ?_, ?_⟩
  · intro j h1 h2 h3
    subst h3
    rw [if_pos ⟨by omega, h1, h2⟩]
  · intro h
    rw [if_neg (by omega)]
  · intro h1 h2 h3
    subst h3
    rw [if_pos ⟨by omega, h1, h2⟩]
  · constructor
    · rintro ⟨j, hj⟩
      by_cases hc : status ≠ 0 ∧ 200 ≤ status ∧ status < 300
      · rw [if_pos hc] at hj
        cases parsed with
        | none => exact absurd hj (by simp)
        | some x => exact ⟨hc.2.1, hc.2.2, by simp⟩
      · rw [if_neg hc] at hj
        exact absurd hj (by simp)
    · rintro ⟨h1, h2, h3⟩
      cases parsed with
      | none => exact absurd rfl h3
      | some x => exact ⟨x, by rw [if_pos ⟨by omega, h1, h2⟩]⟩

/-- Witness for **C7**: a 200 with a parseable body resolves; a 500 rejects
with the protocol error carrying the body; a 204 with an unparseable body
rejects with the decode error carrying the body. -/
theorem c7_http_response_handling_witness :
    handleHttpResponse 200 "null" (some .null) = .ok .null
  ∧ handleHttpResponse 500 "oops" none = .error ("HTTP " ++ toString 500 ++ ": " ++ "oops")
  ∧ handleHttpResponse 204 "bad json" none =
      .error ("Invalid JSON response: " ++ "bad json") := by
  exact ⟨(c7_http_response_handling 200 "null" (some .null)).1 .null (by decide) (by decide) rfl,
         (c7_http_response_handling 500 "oops" none).2.1 (Or.inr (by decide)),
         (c7_http_response_handling 204 "bad json" none).2.2.1 (by decide) (by decide) rfl⟩

/-- **C3** (counterexample): the claim that every generated id is a positive
integer never equal to the incoming request's id is false on the code.
`Math.random()` ranges over `[0, 1)`: at the draw `0` the generated id is
`0`, which is not positive; and at the draw `1/2` the generated id is
`500000`, so an outgoing request triggered by an incoming request whose id
is `500000` carries an id equal to it. -/
theorem c3_id_positive_counterexample :
    ((0:ℚ) ≤ 0 ∧ (0:ℚ) < 1 ∧ generateId 0 = 0 ∧ ¬ (0 < generateId 0))
  ∧ ((0:ℚ) ≤ 1/2 ∧ (1/2:ℚ) < 1 ∧ generateId (1/2) = 500000
      ∧ (buildOutgoing .toolsCall (some (.obj [("name", .str "echo")])) (1/2)).id = 500000) := by
  have h0 : generateId 0 = 0 := by
    unfold generateId
    norm_num
  have h2 : generateId (1/2) = 500000 := by
    unfold generateId
    norm_num
  refine ⟨⟨le_refl 0, by norm_num, h0, by omega⟩,
          ⟨by norm_num, by norm_num, h2, ?_⟩⟩
  show generateId (1/2) = 500000
  exact h2

/-- **C3** (amended): for every value `r` drawn from `Math.random()` (so
`0 ≤ r < 1`), the generated id is a nonnegative integer below `1000000` —
it may be `0`, hence is not always positive — and the outgoing request's id
is `generateId r` whatever the incoming request supplies, so it is never
derived from the incoming id (though it may coincide with it). -/
theorem c3_id_range_amended (r : ℚ) (h0 : 0 ≤ r) (h1 : r < 1) :
    0 ≤ generateId r ∧ generateId r < 1000000
  ∧ ∀ (m : LocalMethod) (p : Option Json), (buildOutgoing m p r).id = generateId r := by
  refine ⟨?_, ?_, ?_⟩
  · exact Int.floor_nonneg.mpr (by positivity)
  · have hlt : (r * 1000000 : ℚ) < ((1000000 : Int) : ℚ) := by
      push_cast
      nlinarith
    exact Int.floor_lt.mpr hlt
  · intro m p
    cases m <;> rfl

/-- Witness for the amended **C3** at the draw `0`. -/
theorem c3_id_range_amended_witness :
    (0:ℚ) ≤ 0 ∧ (0:ℚ) < 1 ∧ 0 ≤ generateId 0 ∧ generateId 0 < 1000000
  ∧ (buildOutgoing .toolsList none 0).id = generateId 0 := by
  have h := c3_id_range_amended 0 (le_refl 0) zero_lt_one
  exact ⟨le_refl 0, zero_lt_one, h.1, h.2.1, h.2.2 .toolsList none⟩

/-- **C5** (counterexample): the claim that a successful response whose
result contains a `content` value yields `\x7bcontent: <that value>\x7d` is
false on the code: `response.result?.content || [...]` substitutes the
synthesized item for every *falsy* present value.  At
`\x7bresult:\x7bcontent:null\x7d\x7d` the local reply is the synthesized
text item carrying `JSON.stringify(\x7bcontent:null\x7d)`, not
`\x7bcontent: null\x7d`. -/
theorem c5_content_counterexample :
    (toolsCallHandler "" none (.resolved nullContentResp)).1 =
      .reply (.obj [("content",
        .arr [.obj [("type", .str "text"),
                    ("text", .str "\x7b\"content\":null\x7d")]])])
  ∧ (toolsCallHandler "" none (.resolved nullContentResp)).1 ≠
      .reply (.obj [("content", .null)]) := by
  constructor
  · rfl
  · intro h
    have h2 : (toolsCallHandler "" none (.resolved nullContentResp)).1 =
        .reply (.obj [("content",
          .arr [.obj [("type", .str "text"),
                      ("text", .str "\x7b\"content\":null\x7d")]])]) := rfl
    rw [h2] at h
    simp at h

/-- **C5** (amended): for `tools/call`, a successful remote response (no
truthy `error` member) whose result carries a *truthy* `content` value
yields `\x7bcontent: <that value>\x7d`; when the `content` chain is falsy or
absent the reply is the single synthesized text item, whose text is the
JSON-stringification of the result when the result is truthy, and of
`\x7b\x7d` when the result is falsy or absent on a non-`null` response
body; a resolved `null` body instead throws the caught TypeError's message
behind the `"Tool execution failed: "` prefix. -/
theorem c5_content_shaping_amended (now : String) (p : Option Json) (resp : Json)
    (herr : truthyOpt (resp.getField "error") = false) :
    (∀ v, optField resp "result" "content" = some v → v.truthy = true →
        (toolsCallHandler now p (.resolved resp)).1 = .reply (.obj [("content", v)]))
  ∧ (∀ res, resp.getField "result" = some res → res.truthy = true →
        truthyOpt (optField resp "result" "content") = false →
        (toolsCallHandler now p (.resolved resp)).1 =
          .reply (.obj [("content",
            .arr [.obj [("type", .str "text"), ("text", .str (stringify res))]])]))
  ∧ (resp.isNull = false → truthyOpt (resp.getField "result") = false →
        (toolsCallHandler now p (.resolved resp)).1 =
          .reply (.obj [("content",
            .arr [.obj [("type", .str "text"), ("text", .str "\x7b\x7d")]])]))
  ∧ ((toolsCallHandler now p (.resolved .null)).1 =
        .thrown ("Tool execution failed: " ++ typeErrorMsg "error")) := by
  refine ⟨?_, ?_, ?_, rfl⟩
  · intro v hv htr
    have hok : jsGet resp "error" = .ok (resp.getField "error") :=
      jsGet_of_isObj (isObj_of_optField_some hv) "error"
    simp [toolsCallHandler, hok, herr, hv, jsOr, htr]
  · intro res hres htr hcf
    have hok : jsGet resp "error" = .ok (resp.getField "error") :=
      jsGet_of_isObj (getField_some_isObj hres) "error"
    simp [toolsCallHandler, hok, herr, jsOr_of_not_truthy hcf, hres, jsOr_of_truthy htr]
  · intro hnn hrf
    have hok : jsGet resp "error" = .ok (resp.getField "error") :=
      jsGet_of_not_null hnn "error"
    have hcf : optField resp "result" "content" = none :=
      optChain_of_not_truthy hrf "content"
    have hstr : stringify (jsOr (resp.getField "result") (.obj [])) = "\x7b\x7d" := by
      rw [jsOr_of_not_truthy hrf]
      rfl
    simp [toolsCallHandler, hok, herr, hcf, jsOr_none, hstr]

/-- Witness for the amended **C5**: a truthy content array is forwarded
untouched; the `null`-content response yields the synthesized item; a
resolved non-`null` primitive body (HTTP 200, body `"ok"`) yields the
synthesized `\x7b\x7d` item; a resolved `null` body (HTTP 200, body
`null`) throws the TypeError message behind the prefix. -/
theorem c5_content_shaping_amended_witness :
    truthyOpt (hiContentResp.getField "error") = false
  ∧ optField hiContentResp "result" "content" =
      some (.arr [.obj [("type", .str "text"), ("text", .str "hi")]])
  ∧ (toolsCallHandler "" none (.resolved hiContentResp)).1 =
      .reply (.obj [("content",
        .arr [.obj [("type", .str "text"), ("text", .str "hi")]])])
  ∧ (toolsCallHandler "" none (.resolved nullContentResp)).1 =
      .reply (.obj [("content",
        .arr [.obj [("type", .str "text"),
                    ("text", .str (stringify (.obj [("content", .null)])))]])])
  ∧ (toolsCallHandler "" none (.resolved (.str "ok"))).1 =
      .reply (.obj [("content",
        .arr [.obj [("type", .str "text"), ("text", .str "\x7b\x7d")]])])
  ∧ (toolsCallHandler "" none (.resolved .null)).1 =
      .thrown ("Tool execution failed: " ++ typeErrorMsg "error") := by
  refine ⟨rfl, rfl,
    (c5_content_shaping_amended "" none hiContentResp rfl).1
      (.arr [.obj [("type", .str "text"), ("text", .str "hi")]]) rfl rfl,
    (c5_content_shaping_amended "" none nullContentResp rfl).2.1
      (.obj [("content", .null)]) rfl rfl rfl,
    (c5_content_shaping_amended "" none (.str "ok") rfl).2.2.1 rfl rfl,
    (c5_content_shaping_amended "" none (.str "ok") rfl).2.2.2⟩

end RemoteMcp
